import Mathlib

/-!
Shallow embedding of the yurtle-kanban work-item tracker
(src/yurtle_kanban: models.py, workflow.py, service.py), together with
theorems settling the frozen claims about its specification.

Python strings are modelled as Lean `String`; Python `None` for an
optional field is `Option.none`.  Attributes that are not dataclass
fields but are attached dynamically in the test-suite (`resolution`,
`superseded_by`) are modelled as `Option (Option _)`: the outer `none`
means the attribute is absent (reading it raises `AttributeError`),
`some none` means it is set to Python `None`.  Timestamps are rationals
(seconds); durations in hours divide by 3600 exactly as the source does.
-/

/-- The apostrophe character, used inside message and condition strings. -/
def sQuote : String := String.singleton (Char.ofNat 39)

/-- Python `needle in haystack` on lists of characters. -/
def containsSubAux (n : List Char) : List Char → Bool
  | [] => n.isEmpty
  | c :: t => n.isPrefixOf (c :: t) || containsSubAux n t

/-- Python substring test `needle in haystack`. -/
def containsSub (needle hay : String) : Bool :=
  containsSubAux needle.toList hay.toList

/-- Python `str.lower()` (ASCII; all ids and statuses here are ASCII). -/
def pyLower (s : String) : String :=
  String.mk (s.toList.map Char.toLower)

/-- Python `str.upper()` (ASCII). -/
def pyUpper (s : String) : String :=
  String.mk (s.toList.map Char.toUpper)

/-- Python whitespace class (space, tab, newline, CR, VT, FF). -/
def pyIsSpace (c : Char) : Bool :=
  c == ' ' || c == Char.ofNat 9 || c == Char.ofNat 10 ||
  c == Char.ofNat 13 || c == Char.ofNat 11 || c == Char.ofNat 12

/-- Python `str.strip()`: drop whitespace from both ends. -/
def pyStrip (s : String) : String :=
  String.mk ((((s.toList.dropWhile pyIsSpace).reverse).dropWhile pyIsSpace).reverse)

/-- Python `str.startswith(p)`. -/
def pyStartsWith (p s : String) : Bool :=
  p.toList.isPrefixOf s.toList

/-- Python `str.split(sep)` for a single-character separator. -/
def splitCharAux (sep : Char) : List Char → List Char → List (List Char)
  | [], acc => [acc.reverse]
  | c :: t, acc =>
    if c == sep then acc.reverse :: splitCharAux sep t [] else splitCharAux sep t (c :: acc)

/-- Python `str.split(sep)` for a single-character separator. -/
def pySplitChar (sep : Char) (s : String) : List String :=
  (splitCharAux sep s.toList []).map String.mk

/-- Python `sep.join(parts)`. -/
def pyJoin (sep : String) : List String → String
  | [] => ""
  | [p] => p
  | p :: rest => p ++ sep ++ pyJoin sep rest

/-- models.py WorkItemStatus: the six standard statuses. -/
inductive WorkItemStatus where
  | backlog | ready | in_progress | review | done | blocked
  deriving DecidableEq, Repr, Fintype

/-- models.py WorkItemStatus.value. -/
def WorkItemStatus.value : WorkItemStatus → String
  | .backlog => "backlog"
  | .ready => "ready"
  | .in_progress => "in_progress"
  | .review => "review"
  | .done => "done"
  | .blocked => "blocked"

/-- All six statuses, in declaration order (iteration order of the enum). -/
def WorkItemStatus.all : List WorkItemStatus :=
  [.backlog, .ready, .in_progress, .review, .done, .blocked]

/-- models.py WorkItemStatus.from_string: normalize then match a value. -/
def WorkItemStatus.from_string (value : String) : Option WorkItemStatus :=
  let normalized :=
    String.mk ((pyLower value).toList.map
      (fun c => if c == '-' then '_' else if c == ' ' then '_' else c))
  WorkItemStatus.all.find? (fun s => s.value == normalized)

/-- models.py WorkItemType (both themes). -/
inductive WorkItemType where
  | feature | bug | epic | issue | task | idea
  | expedition | voyage | directive | hazard | signal | chore
  deriving DecidableEq, Repr

/-- models.py WorkItemType.value. -/
def WorkItemType.value : WorkItemType → String
  | .feature => "feature"
  | .bug => "bug"
  | .epic => "epic"
  | .issue => "issue"
  | .task => "task"
  | .idea => "idea"
  | .expedition => "expedition"
  | .voyage => "voyage"
  | .directive => "directive"
  | .hazard => "hazard"
  | .signal => "signal"
  | .chore => "chore"

/-- models.py Comment. -/
structure Comment where
  content : String
  author : String
  created_at : ℚ
  deriving DecidableEq, Repr

/-- models.py Column. -/
structure Column where
  id : String
  name : String
  order : Int
  wip_limit : Option Nat := none
  description : Option String := none
  deriving DecidableEq, Repr

/-- models.py Column.is_over_wip: `count > wip_limit`, never over when unset. -/
def Column.is_over_wip (c : Column) (count : Nat) : Bool :=
  match c.wip_limit with
  | none => false
  | some limit => count > limit

/-- models.py WorkItem.  `resolution` / `superseded_by` model dynamically
attached attributes (outer `none` = attribute absent). -/
structure WorkItem where
  id : String
  title : String
  item_type : WorkItemType
  status : WorkItemStatus
  file_path : String
  priority : Option String := none
  assignee : Option String := none
  created : Option String := none
  updated : Option ℚ := none
  tags : List String := []
  depends_on : List String := []
  blocks : List String := []
  description : Option String := none
  comments : List Comment := []
  resolution : Option (Option String) := none
  superseded_by : Option (List String) := none
  deriving DecidableEq, Repr

/-- workflow.py StateConfig. -/
structure StateConfig where
  id : String
  name : String
  is_initial : Bool := false
  is_terminal : Bool := false
  allowed_transitions : List String := []
  description : String := ""
  deriving DecidableEq, Repr

/-- workflow.py StateConfig.can_transition_to. -/
def StateConfig.can_transition_to (s : StateConfig) (target_id : String) : Bool :=
  s.allowed_transitions.contains target_id

/-- workflow.py TransitionRule. -/
structure TransitionRule where
  id : String
  applies_to : String
  condition : String
  message : String
  deriving DecidableEq, Repr

/-- workflow.py WorkflowConfig. -/
structure WorkflowConfig where
  id : String
  name : String := ""
  applies_to : String := "feature"
  states : List StateConfig := []
  rules : List TransitionRule := []
  version : Nat := 1
  deriving DecidableEq, Repr

/-- workflow.py get_state normalization:
`state_id.lower().strip().replace(" ", "_").replace("-", "_")`. -/
def normalize_state_id (state_id : String) : String :=
  String.mk ((pyStrip (pyLower state_id)).toList.map
    (fun c => if c == ' ' then '_' else if c == '-' then '_' else c))

/-- workflow.py WorkflowConfig.get_state: normalized lookup. -/
def WorkflowConfig.get_state (w : WorkflowConfig) (state_id : String) : Option StateConfig :=
  let normalized := normalize_state_id state_id
  w.states.find? (fun s => pyLower s.id == normalized)

/-- workflow.py WorkflowConfig.get_initial_states. -/
def WorkflowConfig.get_initial_states (w : WorkflowConfig) : List StateConfig :=
  w.states.filter (fun s => s.is_initial)

/-- workflow.py WorkflowConfig.get_terminal_states. -/
def WorkflowConfig.get_terminal_states (w : WorkflowConfig) : List StateConfig :=
  w.states.filter (fun s => s.is_terminal)

/-- workflow.py WorkflowConfig.get_allowed_transitions. -/
def WorkflowConfig.get_allowed_transitions (w : WorkflowConfig) (from_state : String) : List String :=
  match w.get_state from_state with
  | some state => state.allowed_transitions
  | none => []

/-- workflow.py WorkflowParser._get_default_states. -/
def get_default_states : List StateConfig :=
  [ { id := "backlog", name := "Backlog", is_initial := true,
      allowed_transitions := ["ready"] },
    { id := "ready", name := "Ready",
      allowed_transitions := ["in_progress", "blocked", "backlog"] },
    { id := "in_progress", name := "In Progress",
      allowed_transitions := ["review", "blocked", "ready"] },
    { id := "blocked", name := "Blocked",
      allowed_transitions := ["ready", "in_progress"] },
    { id := "review", name := "Review",
      allowed_transitions := ["done", "in_progress"] },
    { id := "done", name := "Done", is_terminal := true,
      allowed_transitions := [] } ]

/-- workflow.py WorkflowParser.get_default_workflow / module-level get_default_workflow. -/
def get_default_workflow : WorkflowConfig :=
  { id := "default", name := "Default Workflow", applies_to := "feature",
    states := get_default_states }

/-- Python truthiness of an optional string (`None` and `""` are falsy). -/
def truthyOptStr : Option String → Bool
  | none => false
  | some s => !(s == "")

/-- Numeric value of a digit run. -/
def digitsVal (l : List Char) : Nat :=
  l.foldl (fun a c => a * 10 + (c.toNat - 48)) 0

/-- workflow.py: `re.search(r'>\s*(\d+)', condition)` — the first `>` that is
followed by optional whitespace and at least one digit; the captured number. -/
def findGtNum : List Char → Option Nat
  | [] => none
  | c :: t =>
    if c == '>' then
      let rest := t.dropWhile pyIsSpace
      let ds := rest.takeWhile (fun d => d.isDigit)
      if ds.isEmpty then findGtNum t else some (digitsVal ds)
    else findGtNum t

/-- workflow.py WorkflowParser._evaluate_rule_condition.  `Except` carries the
`AttributeError` raised when a dynamically attached attribute is absent; the
final branch is the fail-closed default. -/
def evaluate_rule_condition (condition : String) (item : WorkItem) : Except String Bool :=
  if containsSub "item.assignee is not None" condition then
    .ok (match item.assignee with | none => false | some a => !(a == ""))
  else if containsSub "len(item.description" condition then
    let desc := item.description.getD ""
    match findGtNum condition.toList with
    | some min_len => .ok (desc.length > min_len)
    | none => .ok (desc.length > 0)
  else if containsSub "item.resolution is not None" condition then
    match item.resolution with
    | none => .error "AttributeError: resolution"
    | some r => .ok (match r with | none => false | some s => !(s == ""))
  else if containsSub "item.resolution" condition && containsSub "superseded_by" condition then
    match item.resolution with
    | none => .error "AttributeError: resolution"
    | some r =>
      if !(r == some "superseded") then .ok true
      else
        match item.superseded_by with
        | none => .error "AttributeError: superseded_by"
        | some l => .ok (l.length > 0)
  else if containsSub (sQuote ++ "objective" ++ sQuote) condition
          && containsSub "item.title" condition then
    .ok (containsSub "objective" (pyLower item.title) || truthyOptStr item.description)
  else
    .ok false

/-- workflow.py validate_transition, rule loop: each evaluation is wrapped in
try/except — a raising rule is logged and skipped, a rule evaluating to false
rejects immediately with its message. -/
def check_rules (rules : List TransitionRule) (target_id : String) (item : WorkItem) :
    Bool × String :=
  match rules with
  | [] => (true, "")
  | r :: rest =>
    if r.applies_to == target_id then
      match evaluate_rule_condition r.condition item with
      | .ok b => if !b then (false, r.message) else check_rules rest target_id item
      | .error _ => check_rules rest target_id item
    else check_rules rest target_id item

/-- workflow.py WorkflowParser.validate_transition.  `workflow` is what
`load_workflow` produced for the item's type (`none` = no workflow file);
`new_status` is the target status string (`.value` for enum callers). -/
def validate_transition (workflow : Option WorkflowConfig) (item : WorkItem)
    (new_status : String) : Bool × String :=
  match workflow with
  | none => (true, "")
  | some wf =>
    match wf.get_state item.status.value with
    | none => (true, "")
    | some current_state =>
      match wf.get_state new_status with
      | none => (false, "Unknown target state: " ++ new_status)
      | some target_state =>
        if !(current_state.can_transition_to target_state.id) then
          (false,
            "Cannot transition from " ++ sQuote ++ current_state.name ++ sQuote ++
            " to " ++ sQuote ++ target_state.name ++ sQuote ++ ". Allowed: " ++
            (let joined := pyJoin ", " current_state.allowed_transitions
             if joined == "" then "none" else joined))
        else check_rules wf.rules target_state.id item

/-- service.py KanbanService._is_valid_transition: the default transition table. -/
def service_is_valid_transition (from_status to_status : WorkItemStatus) : Bool :=
  let valid_transitions : List WorkItemStatus :=
    match from_status with
    | .backlog => [.ready, .blocked]
    | .ready => [.in_progress, .backlog, .blocked]
    | .in_progress => [.review, .done, .blocked, .ready]
    | .review => [.done, .in_progress, .blocked]
    | .blocked => [.ready, .in_progress, .backlog]
    | .done => []
  valid_transitions.contains to_status

/-- service.py KanbanService._get_default_transitions. -/
def service_get_default_transitions (status : WorkItemStatus) : List WorkItemStatus :=
  match status with
  | .backlog => [.ready, .blocked]
  | .ready => [.in_progress, .backlog, .blocked]
  | .in_progress => [.review, .done, .blocked, .ready]
  | .review => [.done, .in_progress, .blocked]
  | .blocked => [.ready, .in_progress, .backlog]
  | .done => []

/-- service.py KanbanService._validate_transition: use the workflow when one
is configured for the item's type, otherwise fall back to the default table. -/
def service_validate_transition (workflow : Option WorkflowConfig) (item : WorkItem)
    (new_status : WorkItemStatus) : Bool × String :=
  match workflow with
  | some wf => validate_transition (some wf) item new_status.value
  | none =>
    if service_is_valid_transition item.status new_status then (true, "")
    else (false, "Invalid transition from " ++ item.status.value ++ " to " ++ new_status.value)

/-- models.py Board. `column_status_map` is a dict keyed by column id. -/
structure Board where
  id : String
  name : String
  columns : List Column
  items : List WorkItem := []
  column_status_map : List (String × WorkItemStatus) := []
  deriving Repr

/-- models.py Board.get_items_by_status. -/
def Board.get_items_by_status (b : Board) (status : WorkItemStatus) : List WorkItem :=
  b.items.filter (fun item => item.status == status)

/-- models.py Board.get_column_counts, status resolution for one column id:
column_status_map lookup first, then WorkItemStatus.from_string; `none` means
the except-branch that stores a count of 0. -/
def Board.status_for_column (b : Board) (col_id : String) : Option WorkItemStatus :=
  match b.column_status_map.find? (fun p => p.1 == col_id) with
  | some p => some p.2
  | none => WorkItemStatus.from_string col_id

/-- The count models.py Board.get_column_counts stores under a column id
(a function of the id alone, so dict overwriting on duplicate ids is benign). -/
def Board.count_for_column (b : Board) (col_id : String) : Nat :=
  match b.status_for_column col_id with
  | some st => (b.get_items_by_status st).length
  | none => 0

/-- models.py Board.get_column_counts as an association list (dict insertion
order; a later column with the same id overwrites, which stores the same
value since the count is a function of the id). -/
def Board.get_column_counts (b : Board) : List (String × Nat) :=
  b.columns.map (fun col => (col.id, b.count_for_column col.id))

/-- Python `counts.get(k, 0)` on a dict built by insertion: last binding wins. -/
def dictGet (counts : List (String × Nat)) (k : String) : Nat :=
  ((counts.reverse.find? (fun p => p.1 == k)).map (fun p => p.2)).getD 0

/-- models.py Board.get_wip_violations. -/
def Board.get_wip_violations (b : Board) : List (Column × Nat) :=
  let counts := b.get_column_counts
  b.columns.filterMap (fun col =>
    let count := dictGet counts col.id
    if col.is_over_wip count then some (col, count) else none)

/-- Python `f"{n:03d}"`: decimal, zero-padded to at least 3 digits. -/
def pad3 (n : Nat) : String :=
  let s := toString n
  if s.length < 3 then String.mk (List.replicate (3 - s.length) '0') ++ s else s

/-- Python `int(s)` restricted to the plain digit strings that occur in ID
suffixes: every character a digit and the string non-empty, else ValueError. -/
def parseNatDigits? (s : String) : Option Nat :=
  let l := s.toList
  if !l.isEmpty && l.all (fun c => c.isDigit) then some (digitsVal l) else none

/-- service.py _get_next_id_number, shared per-entry step: take
`int(name.split("-")[1])` when `name` starts with `prefix + "-"`, else skip
(ValueError / IndexError are caught and skipped). -/
def idNum? (pfx : String) (name : String) : Option Nat :=
  if pyStartsWith (pfx ++ "-") name then
    match (pySplitChar '-' name).get? 1 with
    | some part => parseNatDigits? part
    | none => none
  else none

/-- service.py KanbanService._get_next_id_number: max numeric suffix over
parsed item ids and raw filename stems, plus one.  (The allocation ledger is
not consulted.) -/
def get_next_id_number (pfx : String) (itemIds : List String) (filenames : List String) : Nat :=
  let max1 := itemIds.foldl (fun m i => match idNum? pfx i with | some n => max m n | none => m) 0
  let max2 := filenames.foldl (fun m f => match idNum? pfx f with | some n => max m n | none => m)
    max1
  max2 + 1

/-- service.py allocation record written to .kanban/_ID_ALLOCATIONS.json
(`pfx` is the JSON key "prefix"). -/
structure AllocationRecord where
  id : String
  pfx : String
  number : Nat
  allocated_at : String
  allocated_by : String
  deriving DecidableEq, Repr

/-- service.py KanbanService.allocate_next_id with commit_allocation=True,
after the re-scan produced `itemIds` and `filenames`: upper-case the prefix,
compute the next number (from items and filenames only), format the id, and
append the allocation to the ledger bounded to its last 100 entries.
Returns (id, number, updated ledger). -/
def allocate_next_id (pfx : String) (itemIds filenames : List String)
    (ledger : List AllocationRecord) (now user : String) :
    String × Nat × List AllocationRecord :=
  let pfxU := pyUpper pfx
  let next_num := get_next_id_number pfxU itemIds filenames
  let item_id := pfxU ++ "-" ++ pad3 next_num
  let allocations := ledger ++ [⟨item_id, pfxU, next_num, now, user⟩]
  let allocations := allocations.drop (allocations.length - 100)
  (item_id, next_num, allocations)

/-- service.py KanbanService.create_item, after `_get_next_id_number` returned
`next_num` for the type's prefix `pfx`: the constructed WorkItem (file writing
is external I/O).  The status is unconditionally BACKLOG. -/
def create_item (pfx : String) (next_num : Nat) (item_type : WorkItemType) (title : String)
    (path : String) (priority : String) (assignee : Option String)
    (description : Option String) (tags : Option (List String)) (today : String) : WorkItem :=
  { id := pfx ++ "-" ++ pad3 next_num,
    title := title,
    item_type := item_type,
    status := .backlog,
    file_path := path,
    priority := some priority,
    assignee := assignee,
    created := some today,
    description := description,
    tags := tags.getD [] }

/-- service.py move_item, WIP check: the first column whose id equals the new
status value, with a truthy (non-None, non-zero) wip_limit not above the
current count, raises. -/
def wip_offender (cols : List Column) (count : Nat) (new_status : WorkItemStatus) :
    Option Column :=
  cols.find? (fun col =>
    col.id == new_status.value &&
    (match col.wip_limit with
     | some limit => !(limit == 0) && count ≥ limit
     | none => false))

/-- service.py KanbanService.move_item for an existing item: workflow
validation (when requested), WIP check against the board, then the in-place
update of status, timestamp and (truthy) assignee.  File/git effects are
external I/O; `.error` models the raised ValueError. -/
def move_item (workflow : Option WorkflowConfig) (cols : List Column)
    (board_items : List WorkItem) (item : WorkItem) (new_status : WorkItemStatus)
    (validate_workflow : Bool) (assignee : Option String) (now : ℚ) :
    Except String WorkItem :=
  let vres :=
    if validate_workflow then service_validate_transition workflow item new_status
    else (true, "")
  if !vres.1 then .error vres.2
  else
    let current_count := (board_items.filter (fun i => i.status == new_status)).length
    match wip_offender cols current_count new_status with
    | some col =>
        .error ("WIP limit reached for " ++ col.name ++ " (" ++ toString current_count ++
          "/" ++ toString ((col.wip_limit.map toString).getD "") ++ ")")
    | none =>
      let item := { item with status := new_status, updated := some now }
      let item :=
        match assignee with
        | some a => if !(a == "") then { item with assignee := some a } else item
        | none => item
      .ok item

/-- A status-history event parsed by service.py get_status_history
(`at_time` is the dict key "at" in seconds, `actor` the key "by"). -/
structure StatusEvent where
  status : String
  at_time : ℚ
  actor : String
  deriving DecidableEq, Repr

/-- service.py get_flow_metrics, second loop: first in_progress timestamp
(set once) and last done timestamp (overwritten on every done event). -/
def flow_scan (history : List StatusEvent) : Option ℚ × Option ℚ :=
  history.foldl (fun acc e =>
    ((if e.status == "in_progress" && acc.1.isNone then some e.at_time else acc.1),
     (if e.status == "done" then some e.at_time else acc.2)))
    (none, none)

/-- service.py get_flow_metrics, third loop: first ready timestamp. -/
def ready_scan (history : List StatusEvent) : Option ℚ :=
  history.foldl (fun acc e =>
    if e.status == "ready" && acc.isNone then some e.at_time else acc) none

/-- service.py get_flow_metrics: cycle time in hours, None when either
endpoint is missing. -/
def cycle_time_hours (history : List StatusEvent) : Option ℚ :=
  match flow_scan history with
  | (some ip, some dn) => some ((dn - ip) / 3600)
  | _ => none

/-- service.py get_flow_metrics: lead time in hours, None when either
endpoint is missing. -/
def lead_time_hours (history : List StatusEvent) : Option ℚ :=
  match ready_scan history, (flow_scan history).2 with
  | some r, some dn => some ((dn - r) / 3600)
  | _, _ => none

/-- service.py update_item, title block: `if title is not None and
title != item.title`, apply and record the change. -/
def upd_title (item : WorkItem) (title : Option String) : WorkItem × Bool :=
  match title with
  | some t => if t == item.title then (item, false) else ({ item with title := t }, true)
  | none => (item, false)

/-- service.py update_item, priority block. -/
def upd_priority (item : WorkItem) (priority : Option String) : WorkItem × Bool :=
  match priority with
  | some p =>
    if some p == item.priority then (item, false) else ({ item with priority := some p }, true)
  | none => (item, false)

/-- service.py update_item, assignee block. -/
def upd_assignee (item : WorkItem) (assignee : Option String) : WorkItem × Bool :=
  match assignee with
  | some a =>
    if some a == item.assignee then (item, false) else ({ item with assignee := some a }, true)
  | none => (item, false)

/-- service.py update_item, description block. -/
def upd_description (item : WorkItem) (description : Option String) : WorkItem × Bool :=
  match description with
  | some d =>
    if some d == item.description then (item, false)
    else ({ item with description := some d }, true)
  | none => (item, false)

/-- service.py update_item, tags block. -/
def upd_tags (item : WorkItem) (tags : Option (List String)) : WorkItem × Bool :=
  match tags with
  | some ts => if ts == item.tags then (item, false) else ({ item with tags := ts }, true)
  | none => (item, false)

/-- service.py KanbanService.update_item for an existing item: apply the
provided, actually-different fields in order (each block mirrored by one
upd_ function returning the item and whether it recorded a change); when no
change was recorded return the item untouched with no file write and no
commit, otherwise stamp the updated timestamp, write the file and commit if
requested.  Result is (item, file_written, git_committed). -/
def update_item (item : WorkItem) (title priority assignee description : Option String)
    (tags : Option (List String)) (commit : Bool) (now : ℚ) :
    WorkItem × Bool × Bool :=
  let r1 := upd_title item title
  let r2 := upd_priority r1.1 priority
  let r3 := upd_assignee r2.1 assignee
  let r4 := upd_description r3.1 description
  let r5 := upd_tags r4.1 tags
  if !(r1.2 || r2.2 || r3.2 || r4.2 || r5.2) then
    (r5.1, false, false)
  else
    ({ r5.1 with updated := some now }, true, commit)

/-- The two-agent allocation race of the spec's uniqueness property, scheduled
per service.py: both agents fetch the same initial remote (no item files, an
empty ledger), compute an allocation, and the winner's push is accepted.  The
loser's push is rejected; _retry_allocation pulls/rebases — which updates only
the ledger file, not any item file — and re-runs allocate_next_id with
sync_remote=False, re-scanning the (still empty) item files. -/
def race_winner : String × Nat × List AllocationRecord :=
  allocate_next_id "EXP" [] [] [] "t0" "agent-a"

/-- The loser's first allocation attempt (push rejected). -/
def race_loser_first : String × Nat × List AllocationRecord :=
  allocate_next_id "EXP" [] [] [] "t0" "agent-b"

/-- The loser's retry: after pull --rebase the local ledger holds the winner's
record followed by the replayed local one; there are still no item files. -/
def race_loser_retry : String × Nat × List AllocationRecord :=
  allocate_next_id "EXP" [] [] (race_winner.2.2 ++ race_loser_first.2.2) "t1" "agent-b"

/-- The default transition sets as the spec (and claim C1) lists them. -/
def spec_default_transitions (status : WorkItemStatus) : List WorkItemStatus :=
  match status with
  | .backlog => [.ready, .blocked]
  | .ready => [.in_progress, .backlog, .blocked]
  | .in_progress => [.review, .done, .blocked, .ready]
  | .review => [.done, .in_progress, .blocked]
  | .blocked => [.ready, .in_progress, .backlog]
  | .done => []

/-- C1 counterexample: in workflow.py's default workflow (one of the two
places the code defines a default), the backlog state allows only {ready},
not the claimed {ready, blocked}. -/
theorem C1_counterexample :
    get_default_workflow.get_allowed_transitions "backlog" = ["ready"] ∧
    ("blocked" ∈ get_default_workflow.get_allowed_transitions "backlog" ↔ False) := by
  constructor
  · rfl
  · decide

/-- C1 (amended): service.py's default table — in both
_get_default_transitions and _is_valid_transition — has exactly the listed
per-state sets, but workflow.py's _get_default_states differs: it omits
backlog→blocked, in_progress→done, review→blocked and blocked→backlog. -/
theorem C1_amended :
    (∀ s t : WorkItemStatus,
      (t ∈ service_get_default_transitions s ↔ t ∈ spec_default_transitions s) ∧
      (service_is_valid_transition s t = true ↔ t ∈ spec_default_transitions s)) ∧
    (get_default_workflow.get_allowed_transitions "backlog" = ["ready"] ∧
     get_default_workflow.get_allowed_transitions "ready" =
       ["in_progress", "blocked", "backlog"] ∧
     get_default_workflow.get_allowed_transitions "in_progress" =
       ["review", "blocked", "ready"] ∧
     get_default_workflow.get_allowed_transitions "review" = ["done", "in_progress"] ∧
     get_default_workflow.get_allowed_transitions "blocked" = ["ready", "in_progress"] ∧
     get_default_workflow.get_allowed_transitions "done" = []) := by
  constructor
  · decide
  · exact ⟨rfl, rfl, rfl, rfl, rfl, rfl⟩

/-- A plain work item in backlog whose type has no workflow configured. -/
def c2item : WorkItem :=
  { id := "FEAT-001", title := "Test Feature", item_type := .feature,
    status := .backlog, file_path := "test.md" }

/-- C2 counterexample: with no workflow for the item's type, the service-level
validator used by move_item does NOT allow unconditionally — it falls back to
the default transition table and rejects backlog→done, and move_item fails. -/
theorem C2_counterexample :
    service_validate_transition none c2item .done =
      (false, "Invalid transition from backlog to done") ∧
    move_item none [] [] c2item .done true none 0 =
      .error "Invalid transition from backlog to done" := by
  exact ⟨rfl, rfl⟩

/-- C2 (amended): only the parser-level validator
(WorkflowParser.validate_transition) allows unconditionally when no workflow
exists; the service-level validator (KanbanService._validate_transition, used
by move_item) falls back to the default transition table and rejects any
move outside it. -/
theorem C2_amended :
    (∀ (item : WorkItem) (ns : String), validate_transition none item ns = (true, "")) ∧
    (∀ (item : WorkItem) (new_status : WorkItemStatus),
      (service_validate_transition none item new_status).1 =
        service_is_valid_transition item.status new_status) := by
  constructor
  · intro item ns; rfl
  · intro item new_status
    unfold service_validate_transition
    cases h : service_is_valid_transition item.status new_status <;> simp [h]

/-- C7: a column with wip_limit = N is not over WIP at count N and is over at
count N + 1; a column with no limit is never over; the board's WIP-violation
list contains exactly the over-WIP columns with their counts. -/
theorem C7_wip_boundary :
    (∀ (c : Column) (n : Nat), c.wip_limit = some n →
       c.is_over_wip n = false ∧ c.is_over_wip (n + 1) = true) ∧
    (∀ (c : Column) (k : Nat), c.wip_limit = none → c.is_over_wip k = false) ∧
    (∀ (b : Board) (c : Column) (n : Nat), (c, n) ∈ b.get_wip_violations →
       c.is_over_wip n = true ∧ n = dictGet b.get_column_counts c.id) ∧
    (∀ (b : Board) (c : Column), c ∈ b.columns →
       c.is_over_wip (dictGet b.get_column_counts c.id) = true →
       (c, dictGet b.get_column_counts c.id) ∈ b.get_wip_violations) := by
  refine ⟨?_, ?_, ?_, ?_⟩
  · intro c n h
    simp [Column.is_over_wip, h]
  · intro c k h
    simp [Column.is_over_wip, h]
  · intro b c n hmem
    simp only [Board.get_wip_violations, List.mem_filterMap] at hmem
    obtain ⟨col, _, hcol⟩ := hmem
    by_cases hover : col.is_over_wip (dictGet b.get_column_counts col.id) = true
    · rw [if_pos hover] at hcol
      obtain ⟨rfl, rfl⟩ := Prod.mk.injEq .. ▸ Option.some.injEq .. ▸ hcol
      exact ⟨hover, rfl⟩
    · rw [if_neg hover] at hcol
      exact absurd hcol (by simp)
  · intro b c hmem hover
    simp only [Board.get_wip_violations, List.mem_filterMap]
    exact ⟨c, hmem, by rw [if_pos hover]⟩

/-- Witness for C7 at a concrete column and board: limit 2, count 2 is not a
violation; count 3 is. -/
theorem C7_wip_boundary_witness :
    (({ id := "review", name := "Review", order := 4, wip_limit := some 2 } : Column).wip_limit
        = some 2) ∧
    ({ id := "review", name := "Review", order := 4, wip_limit := some 2 } : Column).is_over_wip 2
        = false ∧
    ({ id := "review", name := "Review", order := 4, wip_limit := some 2 } : Column).is_over_wip 3
        = true :=
  ⟨rfl, C7_wip_boundary.1 _ 2 rfl⟩

/-- C3: guard evaluation is fail-closed — any condition string matching none
of the five recognized predicate shapes evaluates to false on every item, and
a rule carrying such a condition rejects the transition into its target state
with that rule's message. -/
theorem C3_fail_closed (condition : String) (item : WorkItem)
    (h1 : containsSub "item.assignee is not None" condition = false)
    (h2 : containsSub "len(item.description" condition = false)
    (h3 : containsSub "item.resolution is not None" condition = false)
    (h4 : (containsSub "item.resolution" condition &&
           containsSub "superseded_by" condition) = false)
    (h5 : (containsSub (sQuote ++ "objective" ++ sQuote) condition &&
           containsSub "item.title" condition) = false) :
    evaluate_rule_condition condition item = .ok false ∧
    ∀ (rid tid msg : String),
      check_rules [⟨rid, tid, condition, msg⟩] tid item = (false, msg) := by
  have he : evaluate_rule_condition condition item = .ok false := by
    unfold evaluate_rule_condition
    rw [h1, h2, h3, h4, h5]
    rfl
  refine ⟨he, fun rid tid msg => ?_⟩
  unfold check_rules
  rw [show (tid == tid) = true by simp, if_pos rfl, he]
  rfl

/-- Witness for C3: the unrecognized condition from the test-suite evaluates
to false on a concrete item and blocks its rule. -/
theorem C3_fail_closed_witness :
    containsSub "item.assignee is not None" "some_unknown_check(item)" = false ∧
    evaluate_rule_condition "some_unknown_check(item)" c2item = .ok false := by
  refine ⟨by decide, (C3_fail_closed "some_unknown_check(item)" c2item
    (by decide) (by decide) (by decide) (by decide) (by decide)).1⟩

/-- A workflow whose ready state transitions to done, guarded by a
resolution-presence rule with message `m`. -/
def c4_workflow (m : String) : WorkflowConfig :=
  { id := "wf-feature", applies_to := "feature",
    states := [ { id := "ready", name := "Ready", allowed_transitions := ["done"] },
                { id := "done", name := "Done", is_terminal := true } ],
    rules := [ ⟨"require-resolution", "done", "item.resolution is not None", m⟩ ] }

/-- The same workflow with a second, always-failing rule appended (its
condition matches no recognized shape). -/
def c4_workflow2 (m m2 : String) : WorkflowConfig :=
  { c4_workflow m with
    rules := [ ⟨"require-resolution", "done", "item.resolution is not None", m⟩,
               ⟨"strange", "done", "mystery_condition(item)", m2⟩ ] }

/-- Python truthiness of the resolution attribute value: set and non-empty. -/
def resolutionSet : Option String → Bool
  | none => false
  | some s => !(s == "")

/-- An item in ready whose resolution attribute was never attached. -/
def c4item : WorkItem :=
  { id := "EXP-001", title := "Test Expedition", item_type := .feature,
    status := .ready, file_path := "test.md" }

/-- C4 counterexample: on an item that has no resolution attribute at all
(the WorkItem dataclass never defines one), the resolution-presence guard
raises AttributeError, validate_transition swallows the exception and skips
the rule, and the transition is ALLOWED although no resolution is set —
refuting "allowed iff the resolution field is set and non-empty". -/
theorem C4_counterexample :
    c4item.resolution = none ∧
    evaluate_rule_condition "item.resolution is not None" c4item =
      .error "AttributeError: resolution" ∧
    validate_transition (some (c4_workflow "needs resolution")) c4item "done" =
      (true, "") := by
  exact ⟨rfl, rfl, rfl⟩

/-- C4 (amended): for every item that does carry the resolution attribute,
a resolution-presence rule on the (otherwise allowed) target behaves as
claimed — the transition is allowed iff the resolution is set and non-empty,
a failing guard rejects with that rule's message, and with a second failing
rule behind it the first failing rule's message wins. -/
theorem C4_amended (item : WorkItem) (r : Option String) (m m2 : String)
    (hres : item.resolution = some r) (hst : item.status = .ready) :
    (resolutionSet r = true →
      validate_transition (some (c4_workflow m)) item "done" = (true, "")) ∧
    (resolutionSet r = false →
      validate_transition (some (c4_workflow m)) item "done" = (false, m)) ∧
    (resolutionSet r = false →
      validate_transition (some (c4_workflow2 m m2)) item "done" = (false, m)) := by
  obtain ⟨id, title, ty, st, fp, pr, asg, cr, up, tg, dep, blk, desc, com, res, sup⟩ := item
  simp only at hres hst
  subst hres hst
  refine ⟨?_, ?_, ?_⟩ <;> intro h
  · cases r with
    | none => exact absurd h (by simp [resolutionSet])
    | some s =>
      have hs : (s == "") = false := by
        simpa [resolutionSet] using h
      show (if !(!(s == "")) then ((false, m) : Bool × String)
            else check_rules [] "done" _) = (true, "")
      rw [hs]
      rfl
  · cases r with
    | none => rfl
    | some s =>
      have hs : (s == "") = true := by
        simpa [resolutionSet] using h
      show (if !(!(s == "")) then ((false, m) : Bool × String)
            else check_rules [] "done" _) = (false, m)
      rw [hs]
      rfl
  · cases r with
    | none => rfl
    | some s =>
      have hs : (s == "") = true := by
        simpa [resolutionSet] using h
      show (if !(!(s == "")) then ((false, m) : Bool × String)
            else check_rules [⟨"strange", "done", "mystery_condition(item)", m2⟩] "done" _)
            = (false, m)
      rw [hs]
      rfl

/-- Witness for C4 at a concrete item whose resolution attribute is set to
Python None: the guarded transition is rejected with the rule's message. -/
theorem C4_amended_witness :
    ({ c4item with resolution := some none } : WorkItem).resolution = some none ∧
    validate_transition (some (c4_workflow "needs resolution"))
      { c4item with resolution := some none } "done" = (false, "needs resolution") :=
  ⟨rfl, (C4_amended { c4item with resolution := some none } none "needs resolution" "m2"
      rfl rfl).2.1 rfl⟩

/-- The ledger of test_next_id_reads_allocations_file: FEAT numbers 1..3
recorded, with no corresponding item files. -/
def c5_ledger : List AllocationRecord :=
  [ ⟨"FEAT-001", "FEAT", 1, "", ""⟩,
    ⟨"FEAT-002", "FEAT", 2, "", ""⟩,
    ⟨"FEAT-003", "FEAT", 3, "", ""⟩ ]

/-- C5 (code-bug evaluation): _get_next_id_number takes its maximum over
parsed item ids and filenames only — the allocation ledger is not among its
sources.  With no item files and a ledger recording up to FEAT-003 the next
number is 1, not 4, so FEAT-001 is reissued even though the ledger records
it (the repository's own test test_next_id_reads_allocations_file asserts 4). -/
theorem C5_eval :
    get_next_id_number "FEAT" [] [] = 1 ∧
    (c5_ledger.map (fun rec => rec.number)).foldl max 0 = 3 ∧
    (allocate_next_id "FEAT" [] [] c5_ledger "t" "u").1 = "FEAT-001" ∧
    (allocate_next_id "FEAT" [] [] c5_ledger "t" "u").2.1 = 1 := by
  exact ⟨rfl, rfl, rfl, rfl⟩

/-- C6 (code-bug evaluation): in the modeled two-agent race both the winner
and the retrying loser receive EXP-001 — the retry re-scans only item files,
and allocate_next_id's result is independent of the ledger contents, so the
winner's ledger record (the only trace of its allocation) is ignored. -/
theorem C6_eval :
    race_winner.1 = "EXP-001" ∧
    race_loser_retry.1 = "EXP-001" ∧
    (∀ (itemIds filenames : List String) (ledger₁ ledger₂ : List AllocationRecord)
       (t₁ t₂ u₁ u₂ : String),
      (allocate_next_id "EXP" itemIds filenames ledger₁ t₁ u₁).1 =
        (allocate_next_id "EXP" itemIds filenames ledger₂ t₂ u₂).1) := by
  refine ⟨rfl, rfl, fun itemIds filenames l₁ l₂ t₁ t₂ u₁ u₂ => rfl⟩

/-- Timestamp of the first event with the given status, if any. -/
def firstTimeWith (st : String) : List StatusEvent → Option ℚ
  | [] => none
  | e :: t => if e.status == st then some e.at_time else firstTimeWith st t

/-- Timestamp of the last event with the given status, if any. -/
def lastTimeWith (st : String) : List StatusEvent → Option ℚ
  | [] => none
  | e :: t =>
    match lastTimeWith st t with
    | some x => some x
    | none => if e.status == st then some e.at_time else none

/-- The source's single pass (first-wins in_progress, last-wins done) computes
the first in_progress timestamp and the last done timestamp. -/
theorem flow_scan_go (h : List StatusEvent) (a b : Option ℚ) :
    h.foldl (fun acc e =>
      ((if e.status == "in_progress" && acc.1.isNone then some e.at_time else acc.1),
       (if e.status == "done" then some e.at_time else acc.2))) (a, b) =
    ((match a with
      | some x => some x
      | none => firstTimeWith "in_progress" h),
     (match lastTimeWith "done" h with
      | some y => some y
      | none => b)) := by
  induction h generalizing a b with
  | nil =>
    cases a <;> simp [lastTimeWith, firstTimeWith]
  | cons e t ih =>
    rw [List.foldl_cons, ih]
    cases a with
    | some x =>
      simp only [Option.isNone_some, Bool.and_false, if_neg (by simp : ¬False)]
      cases hip : (e.status == "in_progress") <;>
        cases hdn : (e.status == "done") <;>
        cases hlt : lastTimeWith "done" t <;>
        simp_all [firstTimeWith, lastTimeWith]
    | none =>
      cases hip : (e.status == "in_progress") <;>
        cases hdn : (e.status == "done") <;>
        cases hlt : lastTimeWith "done" t <;>
        simp_all [firstTimeWith, lastTimeWith]

/-- flow_scan in terms of the first in_progress and last done timestamps. -/
theorem flow_scan_eq (h : List StatusEvent) :
    flow_scan h = (firstTimeWith "in_progress" h, lastTimeWith "done" h) := by
  have := flow_scan_go h none none
  rw [flow_scan, this]
  cases lastTimeWith "done" h <;> rfl

/-- The ready pass computes the first ready timestamp. -/
theorem ready_scan_go (h : List StatusEvent) (a : Option ℚ) :
    h.foldl (fun acc e =>
      if e.status == "ready" && acc.isNone then some e.at_time else acc) a =
    (match a with
     | some x => some x
     | none => firstTimeWith "ready" h) := by
  induction h generalizing a with
  | nil => cases a <;> rfl
  | cons e t ih =>
    rw [List.foldl_cons, ih]
    cases a with
    | some x => simp [firstTimeWith]
    | none =>
      cases hr : (e.status == "ready") <;> simp_all [firstTimeWith]

/-- ready_scan in terms of the first ready timestamp. -/
theorem ready_scan_eq (h : List StatusEvent) :
    ready_scan h = firstTimeWith "ready" h := by
  rw [ready_scan, ready_scan_go h none]

/-- A status that occurs nowhere has no last occurrence. -/
theorem lastTimeWith_eq_none (st : String) (h : List StatusEvent)
    (hf : h.filter (fun e => e.status == st) = []) : lastTimeWith st h = none := by
  induction h with
  | nil => rfl
  | cons e t ih =>
    cases he : (e.status == st) with
    | true => simp [List.filter_cons, he] at hf
    | false =>
      simp only [List.filter_cons, he] at hf
      simp only [Bool.false_eq_true, if_false] at hf
      simp [lastTimeWith, ih hf, he]

/-- When the status occurs exactly once, its last occurrence is that event. -/
theorem lastTimeWith_of_filter_singleton (st : String) (h : List StatusEvent)
    (e₀ : StatusEvent) (hf : h.filter (fun e => e.status == st) = [e₀]) :
    lastTimeWith st h = some e₀.at_time := by
  induction h with
  | nil => simp at hf
  | cons e t ih =>
    cases he : (e.status == st) with
    | true =>
      simp only [List.filter_cons, he, if_true] at hf
      obtain ⟨rfl, hnil⟩ := List.cons_eq_cons.mp hf
      simp [lastTimeWith, lastTimeWith_eq_none st t hnil, he]
    | false =>
      simp only [List.filter_cons, he] at hf
      simp only [Bool.false_eq_true, if_false] at hf
      simp [lastTimeWith, ih hf]

/-- The spec's flow-metrics scenario: ready at T0, in_progress at T0+1h,
done at T0+4h (times in seconds, T0 = 0). -/
def c8_history : List StatusEvent :=
  [ ⟨"ready", 0, "tester"⟩, ⟨"in_progress", 3600, "tester"⟩, ⟨"done", 14400, "tester"⟩ ]

/-- C8: cycle time runs from the first in_progress event to the done event
and lead time from the first ready event to the done event, each absent when
either endpoint is missing; on the scenario history the values are 3.0 and
4.0 hours. -/
theorem C8_flow_metrics :
    (∀ h : List StatusEvent,
      (∀ (t_ip : ℚ) (e_dn : StatusEvent),
        firstTimeWith "in_progress" h = some t_ip →
        h.filter (fun e => e.status == "done") = [e_dn] →
        cycle_time_hours h = some ((e_dn.at_time - t_ip) / 3600)) ∧
      (firstTimeWith "in_progress" h = none → cycle_time_hours h = none) ∧
      (h.filter (fun e => e.status == "done") = [] → cycle_time_hours h = none) ∧
      (∀ (t_r : ℚ) (e_dn : StatusEvent),
        firstTimeWith "ready" h = some t_r →
        h.filter (fun e => e.status == "done") = [e_dn] →
        lead_time_hours h = some ((e_dn.at_time - t_r) / 3600)) ∧
      (firstTimeWith "ready" h = none → lead_time_hours h = none) ∧
      (h.filter (fun e => e.status == "done") = [] → lead_time_hours h = none)) ∧
    cycle_time_hours c8_history = some 3 ∧
    lead_time_hours c8_history = some 4 := by
  refine ⟨fun h => ⟨?_, ?_, ?_, ?_, ?_, ?_⟩, ?_, ?_⟩
  · intro t_ip e_dn h1 h2
    simp [cycle_time_hours, flow_scan_eq, h1,
      lastTimeWith_of_filter_singleton "done" h e_dn h2]
  · intro h1
    simp [cycle_time_hours, flow_scan_eq, h1]
  · intro h2
    cases hip : firstTimeWith "in_progress" h <;>
      simp [cycle_time_hours, flow_scan_eq, hip, lastTimeWith_eq_none "done" h h2]
  · intro t_r e_dn h1 h2
    simp [lead_time_hours, flow_scan_eq, ready_scan_eq, h1,
      lastTimeWith_of_filter_singleton "done" h e_dn h2]
  · intro h1
    simp [lead_time_hours, flow_scan_eq, ready_scan_eq, h1]
  · intro h2
    cases hr : firstTimeWith "ready" h <;>
      simp [lead_time_hours, flow_scan_eq, ready_scan_eq, hr,
        lastTimeWith_eq_none "done" h h2]
  · have hs : flow_scan c8_history = (some 3600, some 14400) := rfl
    simp [cycle_time_hours, hs]
    norm_num
  · have hs : flow_scan c8_history = (some 3600, some 14400) := rfl
    have hr : ready_scan c8_history = some 0 := rfl
    simp [lead_time_hours, hs, hr]
    norm_num

/-- Witness for C8 at the scenario history: the general endpoint rule applied
at concrete inputs reproduces the computed cycle time. -/
theorem C8_flow_metrics_witness :
    firstTimeWith "in_progress" c8_history = some 3600 ∧
    c8_history.filter (fun e => e.status == "done") = [⟨"done", 14400, "tester"⟩] ∧
    cycle_time_hours c8_history = some ((14400 - 3600) / 3600) :=
  ⟨rfl, rfl, (C8_flow_metrics.1 c8_history).1 3600 ⟨"done", 14400, "tester"⟩ rfl rfl⟩

/-- A successful get_state lookup returns a defined state whose lowered id is
the normalized query. -/
theorem get_state_mem (wf : WorkflowConfig) (ns : String) (ts : StateConfig)
    (h : wf.get_state ns = some ts) :
    ts ∈ wf.states ∧ pyLower ts.id = normalize_state_id ns := by
  unfold WorkflowConfig.get_state at h
  refine ⟨List.mem_of_find?_eq_some h, ?_⟩
  have := List.find?_some h
  simpa using this

/-- When the current state is known to the workflow, a passing validation
requires the target state to be defined. -/
theorem validate_target_defined (wf : WorkflowConfig) (item : WorkItem) (ns : String)
    (cs : StateConfig) (hcs : wf.get_state item.status.value = some cs)
    (h : (validate_transition (some wf) item ns).1 = true) :
    ∃ ts, wf.get_state ns = some ts := by
  unfold validate_transition at h
  simp only [hcs] at h
  cases hts : wf.get_state ns with
  | none => simp only [hts] at h; simp at h
  | some ts => exact ⟨ts, rfl⟩

/-- A declarative workflow for the feature type whose defined states are
draft and accepted only — no backlog, no done. -/
def c9_workflow : WorkflowConfig :=
  { id := "wf-spec", applies_to := "feature",
    states := [ { id := "draft", name := "Draft", is_initial := true,
                  allowed_transitions := ["accepted"] },
                { id := "accepted", name := "Accepted", is_terminal := true } ] }

/-- An item of that type whose current status is unknown to the workflow. -/
def c9item : WorkItem :=
  { id := "FEAT-002", title := "Spec item", item_type := .feature,
    status := .backlog, file_path := "s.md" }

/-- C9 counterexample: create_item always assigns status backlog even when
the configured workflow for the type defines only draft/accepted, so the
created item's status is not among the workflow's state ids; and a validated
move_item from a status unknown to the workflow succeeds into done, which is
also not among the workflow's state ids. -/
theorem C9_counterexample :
    (create_item "FEAT" 1 .feature "T" "p.md" "medium" none none none
        "2026-01-01").status.value = "backlog" ∧
    c9_workflow.states.map StateConfig.id = ["draft", "accepted"] ∧
    ("backlog" ∈ c9_workflow.states.map StateConfig.id ↔ False) ∧
    ((move_item (some c9_workflow) [] [] c9item .done true none 0).toOption.map
        (fun it => it.status.value)) = some "done" ∧
    ("done" ∈ c9_workflow.states.map StateConfig.id ↔ False) := by
  refine ⟨rfl, rfl, by decide, rfl, by decide⟩

/-- C9 (amended): create_item's status is always backlog, which lies in the
default fallback state set; and a successful validated move_item whose
current status is known to the configured workflow lands on a status that
normalizes to one of the workflow's defined state ids. -/
theorem C9_amended :
    (∀ (pfx : String) (n : Nat) (ty : WorkItemType) (title path priority today : String)
       (asg desc : Option String) (tg : Option (List String)),
      (create_item pfx n ty title path priority asg desc tg today).status = .backlog ∧
      "backlog" ∈ get_default_states.map StateConfig.id) ∧
    (∀ (wf : WorkflowConfig) (cols : List Column) (bitems : List WorkItem)
       (item : WorkItem) (ns : WorkItemStatus) (asg : Option String) (now : ℚ)
       (it : WorkItem) (cs : StateConfig),
      wf.get_state item.status.value = some cs →
      move_item (some wf) cols bitems item ns true asg now = .ok it →
      it.status = ns ∧
      ∃ s ∈ wf.states, pyLower s.id = normalize_state_id ns.value) := by
  constructor
  · intro pfx n ty title path priority today asg desc tg
    exact ⟨rfl, by decide⟩
  · intro wf cols bitems item ns asg now it cs hcs hmv
    unfold move_item at hmv
    simp only [service_validate_transition, if_true] at hmv
    cases hb : validate_transition (some wf) item ns.value with
    | mk valid msg =>
      rw [hb] at hmv
      cases valid with
      | false => simp at hmv
      | true =>
        simp only [Bool.not_true, Bool.false_eq_true, if_false] at hmv
        cases hw : wip_offender cols
            ((bitems.filter (fun i => i.status == ns)).length) ns with
        | some col => rw [hw] at hmv; simp at hmv
        | none =>
          rw [hw] at hmv
          have hstatus : it.status = ns := by
            cases asg with
            | none =>
              simp only [Except.ok.injEq] at hmv
              rw [← hmv]
            | some a =>
              cases ha : (a == "") with
              | true =>
                simp only [ha, Bool.not_true, Bool.false_eq_true, if_false,
                  Except.ok.injEq] at hmv
                rw [← hmv]
              | false =>
                simp only [ha, Bool.not_false, if_true, Except.ok.injEq] at hmv
                rw [← hmv]
          refine ⟨hstatus, ?_⟩
          obtain ⟨ts, hts⟩ := validate_target_defined wf item ns.value cs hcs
            (by rw [hb])
          obtain ⟨hmem, hnorm⟩ := get_state_mem wf ns.value ts hts
          exact ⟨ts, hmem, hnorm⟩

/-- Witness for C9 at a concrete validated move on the default workflow:
backlog → ready succeeds and lands on a defined state. -/
theorem C9_amended_witness :
    get_default_workflow.get_state c2item.status.value =
      some ⟨"backlog", "Backlog", true, false, ["ready"], ""⟩ ∧
    move_item (some get_default_workflow) [] [] c2item .ready true none 0 =
      .ok { c2item with status := .ready, updated := some 0 } ∧
    ({ c2item with status := .ready, updated := some 0 } : WorkItem).status = .ready ∧
    ∃ s ∈ get_default_workflow.states,
      pyLower s.id = normalize_state_id (WorkItemStatus.ready).value := by
  have h := C9_amended.2 get_default_workflow [] [] c2item .ready none 0
    { c2item with status := .ready, updated := some 0 }
    ⟨"backlog", "Backlog", true, false, ["ready"], ""⟩ rfl rfl
  exact ⟨rfl, rfl, h.1, h.2⟩

/-- The title block changes at most the title field. -/
theorem upd_title_spec (item : WorkItem) (o : Option String) :
    (upd_title item o).1 = { item with title := (upd_title item o).1.title } := by
  cases o with
  | none => rfl
  | some t => by_cases h : (t == item.title) = true <;> simp [upd_title, h]

/-- The priority block changes at most the priority field. -/
theorem upd_priority_spec (item : WorkItem) (o : Option String) :
    (upd_priority item o).1 = { item with priority := (upd_priority item o).1.priority } := by
  cases o with
  | none => rfl
  | some t => by_cases h : (some t == item.priority) = true <;> simp [upd_priority, h]

/-- The assignee block changes at most the assignee field. -/
theorem upd_assignee_spec (item : WorkItem) (o : Option String) :
    (upd_assignee item o).1 = { item with assignee := (upd_assignee item o).1.assignee } := by
  cases o with
  | none => rfl
  | some t => by_cases h : (some t == item.assignee) = true <;> simp [upd_assignee, h]

/-- The description block changes at most the description field. -/
theorem upd_description_spec (item : WorkItem) (o : Option String) :
    (upd_description item o).1 =
      { item with description := (upd_description item o).1.description } := by
  cases o with
  | none => rfl
  | some t => by_cases h : (some t == item.description) = true <;> simp [upd_description, h]

/-- The tags block changes at most the tags field. -/
theorem upd_tags_spec (item : WorkItem) (o : Option (List String)) :
    (upd_tags item o).1 = { item with tags := (upd_tags item o).1.tags } := by
  cases o with
  | none => rfl
  | some ts => by_cases h : (ts == item.tags) = true <;> simp [upd_tags, h]

/-- A title argument that is absent or equal to the current value records no
change. -/
theorem upd_title_nochange (item : WorkItem) (o : Option String)
    (h : o = none ∨ o = some item.title) : upd_title item o = (item, false) := by
  rcases h with rfl | rfl
  · rfl
  · simp [upd_title]

/-- A priority argument that is absent or equal to the current value records
no change. -/
theorem upd_priority_nochange (item : WorkItem) (o : Option String)
    (h : o = none ∨ o = item.priority) : upd_priority item o = (item, false) := by
  rcases h with rfl | rfl
  · rfl
  · cases hp : item.priority <;> simp [upd_priority, hp]

/-- An assignee argument that is absent or equal to the current value records
no change. -/
theorem upd_assignee_nochange (item : WorkItem) (o : Option String)
    (h : o = none ∨ o = item.assignee) : upd_assignee item o = (item, false) := by
  rcases h with rfl | rfl
  · rfl
  · cases hp : item.assignee <;> simp [upd_assignee, hp]

/-- A description argument that is absent or equal to the current value
records no change. -/
theorem upd_description_nochange (item : WorkItem) (o : Option String)
    (h : o = none ∨ o = item.description) : upd_description item o = (item, false) := by
  rcases h with rfl | rfl
  · rfl
  · cases hp : item.description <;> simp [upd_description, hp]

/-- A tags argument that is absent or equal to the current value records no
change. -/
theorem upd_tags_nochange (item : WorkItem) (o : Option (List String))
    (h : o = none ∨ o = some item.tags) : upd_tags item o = (item, false) := by
  rcases h with rfl | rfl
  · rfl
  · simp [upd_tags]

/-- C10: update_item touches at most title, priority, assignee, description,
tags and the updated timestamp; and when every provided argument is None or
equal to the item's current value, the item is returned unchanged with no
file write and no commit. -/
theorem C10_update_frame :
    (∀ (item : WorkItem) (title priority assignee description : Option String)
       (tags : Option (List String)) (commit : Bool) (now : ℚ),
      ∃ (t : String) (p a d : Option String) (tg : List String) (u : Option ℚ) (w c : Bool),
        update_item item title priority assignee description tags commit now =
          ({ item with
              title := t, priority := p, assignee := a, description := d,
              tags := tg, updated := u }, w, c)) ∧
    (∀ (item : WorkItem) (title priority assignee description : Option String)
       (tags : Option (List String)) (commit : Bool) (now : ℚ),
      (title = none ∨ title = some item.title) →
      (priority = none ∨ priority = item.priority) →
      (assignee = none ∨ assignee = item.assignee) →
      (description = none ∨ description = item.description) →
      (tags = none ∨ tags = some item.tags) →
      update_item item title priority assignee description tags commit now =
        (item, false, false)) := by
  constructor
  · intro item title priority assignee description tags commit now
    have e1 := upd_title_spec item title
    have e2 := upd_priority_spec (upd_title item title).1 priority
    have e3 := upd_assignee_spec (upd_priority (upd_title item title).1 priority).1 assignee
    have e4 := upd_description_spec
      (upd_assignee (upd_priority (upd_title item title).1 priority).1 assignee).1 description
    have e5 := upd_tags_spec
      (upd_description
        (upd_assignee (upd_priority (upd_title item title).1 priority).1 assignee).1
        description).1 tags
    unfold update_item
    dsimp only
    split
    · exact ⟨_, _, _, _, _, item.updated, false, false, by rw [e5, e4, e3, e2, e1]⟩
    · exact ⟨_, _, _, _, _, some now, true, commit, by rw [e5, e4, e3, e2, e1]⟩
  · intro item title priority assignee description tags commit now h1 h2 h3 h4 h5
    unfold update_item
    simp only [upd_title_nochange item title h1]
    simp only [upd_priority_nochange item priority h2]
    simp only [upd_assignee_nochange item assignee h3]
    simp only [upd_description_nochange item description h4]
    simp only [upd_tags_nochange item tags h5]
    simp

/-- Witness for C10: updating with no provided arguments returns the item
unchanged and performs no write or commit. -/
theorem C10_update_frame_witness :
    update_item c4item none none none none none true 5 = (c4item, false, false) :=
  C10_update_frame.2 c4item none none none none none true 5
    (Or.inl rfl) (Or.inl rfl) (Or.inl rfl) (Or.inl rfl) (Or.inl rfl)
